import Mathlib

/-!
Shallow embedding of the `catalog` application of `django_local_library`
(files `catalog/forms.py` and `catalog/views.py`).

Dates are modelled as integers counting days; `today` is passed explicitly
where the Python code calls `datetime.date.today()`.  A Python
`datetime.timedelta(weeks=k)` is `7 * k` days.  Fallible validation is
modelled with `Except String Int`, the `String` being the message of the
`ValidationError` raised by the source.
-/

namespace Catalog

/-- Message of the `ValidationError` raised by `RenewBookForm.clean_renewal_date`
when the date is in the past (forms.py line 19). -/
def formPastMsg : String := "Invalid data - renewal in past"

/-- Message of the `ValidationError` raised by `RenewBookForm.clean_renewal_date`
when the date is more than 4 weeks ahead (forms.py line 23). -/
def formFarMsg : String := "Invalid data - renewal data more than 4 weeks ahead"

/-- Message of the `ValidationError` raised by `RenewBookModelForm.clean_due_back`
when the date is in the past (forms.py line 36). -/
def modelPastMsg : String := "Invalid date - renewal in past"

/-- Message of the `ValidationError` raised by `RenewBookModelForm.clean_due_back`
when the date is more than 4 weeks ahead (forms.py line 40). -/
def modelFarMsg : String := "Invalid date - renewal more than 4 weeks ahead"

/-- Embedding of `RenewBookForm.clean_renewal_date` (forms.py lines 14-26):
rejects a date before `today`, then a date after `today + 4 weeks`,
otherwise returns the data unchanged. -/
def clean_renewal_date (today data : Int) : Except String Int :=
  if data < today then .error formPastMsg
  else if data > today + 7 * 4 then .error formFarMsg
  else .ok data

/-- Embedding of `RenewBookModelForm.clean_due_back` (forms.py lines 31-43):
rejects a date before `today`, then a date after `today + 4 weeks`,
otherwise returns the data unchanged. -/
def clean_due_back (today data : Int) : Except String Int :=
  if data < today then .error modelPastMsg
  else if data > today + 7 * 4 then .error modelFarMsg
  else .ok data

/-- A requesting user, Django's `request.user`: its `is_authenticated` flag
and the set of granted permission strings. -/
structure Actor where
  is_authenticated : Bool
  perms : List String
deriving DecidableEq, Repr

/-- One `BookInstance` row: primary key, nullable `due_back` date,
one-letter `status` code and nullable `borrower` (a user id). -/
structure BookInstanceRec where
  id : Nat
  due_back : Option Int
  status : Char
  borrower : Option Nat
deriving DecidableEq, Repr

/-- One `Author` row (only fields the views read). -/
structure AuthorRec where
  id : Nat
  first_name : String
  last_name : String
deriving DecidableEq, Repr

/-- One `Book` row (only fields the views read). -/
structure BookRec where
  id : Nat
  title : String
deriving DecidableEq, Repr

/-- One `Genre` row. -/
structure GenreRec where
  id : Nat
  name : String
deriving DecidableEq, Repr

/-- The entity store queried by the views. -/
structure Db where
  books : List BookRec
  bookinstances : List BookInstanceRec
  authors : List AuthorRec
  genres : List GenreRec
deriving DecidableEq, Repr

/-- The permission string checked by `index` and `renew_book_librarian`. -/
def can_mark_returned : String := "catalog.can_mark_returned"

/-- The second permission string appearing in the class-based views'
`permission_required` tuples. -/
def can_edit : String := "catalog.can_edit"

/-- Result of dispatching a request through the decorators and mixins:
`login_required` redirects anonymous callers to the login page;
`permission_required(..., raise_exception=True)`, like a failing
`PermissionRequiredMixin` check on an authenticated user, raises
`PermissionDenied`; `get_object_or_404` raises a 404; otherwise the view
body answers. -/
inductive ViewResponse (α : Type) where
  | redirectToLogin
  | permissionDenied
  | notFound
  | ok (a : α)
deriving DecidableEq, Repr

/-- Context dictionary rendered by `index` (views.py lines 41-49). -/
structure IndexContext where
  num_books : Nat
  num_instances : Nat
  num_instances_available : Nat
  num_authors : Nat
  authors : List AuthorRec
  num_genres : Nat
  num_visits : Nat
deriving DecidableEq, Repr

/-- The body of `index` (views.py lines 18-52): counts of books, instances,
available instances, authors and genres whose name case-insensitively is
fantasy, the diagnostic full author listing, and the per-session visit
counter read with default 0 and stored back incremented.  Returns the
rendered context together with the new session slot for num_visits. -/
def index_body (db : Db) (session : Option Nat) : IndexContext × Option Nat :=
  let num_books := db.books.length
  let num_instances := db.bookinstances.length
  let num_instances_available :=
    (db.bookinstances.filter (fun b => b.status == 'a')).length
  let num_authors := db.authors.length
  let num_genres :=
    (db.genres.filter (fun g => g.name.toLower == "fantasy")).length
  let authors := db.authors
  let num_visits := session.getD 0
  ({ num_books := num_books, num_instances := num_instances,
     num_instances_available := num_instances_available,
     num_authors := num_authors, authors := authors,
     num_genres := num_genres, num_visits := num_visits },
   some (num_visits + 1))

/-- `index` together with its decorators (views.py lines 16-18):
`login_required` first redirects anonymous callers, then
`permission_required` with raise_exception raises `PermissionDenied`
when `catalog.can_mark_returned` is missing. -/
def index (actor : Actor) (db : Db) (session : Option Nat) :
    ViewResponse (IndexContext × Option Nat) :=
  if actor.is_authenticated = false then .redirectToLogin
  else if actor.perms.contains can_mark_returned = false then .permissionDenied
  else .ok (index_body db session)

/-- The session slot for the key num_visits after `n` calls of the home
view in one fresh session (absent before the first call). -/
def sessionAfterVisits (db : Db) : Nat → Option Nat
  | 0 => none
  | n + 1 => (index_body db (sessionAfterVisits db n)).2

/-- The num_visits value rendered on the `n`-th home-view call of a
session, calls numbered from 1. -/
def reportedVisitsOnCall (db : Db) (n : Nat) : Nat :=
  (index_body db (sessionAfterVisits db (n - 1))).1.num_visits

/-- The status code of an on-loan `BookInstance`. -/
def statusOnLoan : Char := 'o'

/-- Ascending SQL comparison on the nullable due_back column, NULLs first
as in the SQLite backend this project runs on. -/
def dueKeyLe : Option Int → Option Int → Bool
  | none, _ => true
  | some _, none => false
  | some a, some b => decide (a ≤ b)

/-- Row ordering produced by `order_by('due_back')`. -/
def instLe (a b : BookInstanceRec) : Prop :=
  dueKeyLe a.due_back b.due_back = true

instance instLeDecidable : DecidableRel instLe := fun a b =>
  inferInstanceAs (Decidable (dueKeyLe a.due_back b.due_back = true))

instance instLeTotal : IsTotal BookInstanceRec instLe :=
  ⟨fun a b => by
    rcases h1 : a.due_back with _ | x <;> rcases h2 : b.due_back with _ | y <;>
      simp [instLe, dueKeyLe, h1, h2] <;> omega⟩

instance instLeTrans : IsTrans BookInstanceRec instLe :=
  ⟨fun a b c hab hbc => by
    rcases h1 : a.due_back with _ | x <;> rcases h2 : b.due_back with _ | y <;>
      rcases h3 : c.due_back with _ | z <;>
      simp_all [instLe, dueKeyLe] <;> omega⟩

/-- `LoanedBooksByUserListView.get_queryset` (views.py lines 91-92): filter
on borrower = current user, then on status exactly on-loan, ordered by
due_back. -/
def loaned_books_by_user_queryset (user : Nat) (db : Db) :
    List BookInstanceRec :=
  List.insertionSort instLe
    ((db.bookinstances.filter (fun b => b.borrower == some user)).filter
      (fun b => b.status == statusOnLoan))

/-- `paginate_by` of `LoanedBooksByUserListView` (views.py line 89). -/
def LoanedBooksByUserListView_paginate_by : Nat := 3

/-- `AllLoanedBooksByUsersListView.get_queryset` (views.py lines 103-104). -/
def all_loaned_books_queryset (db : Db) : List BookInstanceRec :=
  List.insertionSort instLe
    (db.bookinstances.filter (fun b => b.status == statusOnLoan))

/-- `permission_required` tuple of `AllLoanedBooksByUsersListView`
(views.py line 101). -/
def AllLoanedBooks_permission_required : List String :=
  [can_mark_returned, can_edit]

/-- `permission_required` tuple of `AuthorCreate` (views.py line 147). -/
def AuthorCreate_permission_required : List String :=
  [can_mark_returned, can_edit]

/-- `permission_required` tuple of `AuthorUpdate` (views.py line 153). -/
def AuthorUpdate_permission_required : List String :=
  [can_mark_returned, can_edit]

/-- `permission_required` tuple of `AuthorDelete` (views.py line 159). -/
def AuthorDelete_permission_required : List String :=
  [can_mark_returned, can_edit]

/-- `permission_required` tuple of `BookCreate` (views.py line 165). -/
def BookCreate_permission_required : List String :=
  [can_mark_returned, can_edit]

/-- `permission_required` tuple of `BookUpdate` (views.py line 171). -/
def BookUpdate_permission_required : List String :=
  [can_mark_returned, can_edit]

/-- `permission_required` tuple of `BookDelete` (views.py line 177). -/
def BookDelete_permission_required : List String :=
  [can_mark_returned, can_edit]

/-- Django's `User.has_perms`: true iff the user holds every permission of
the list (the framework's ALL semantics used by
`PermissionRequiredMixin`). -/
def has_perms (actor : Actor) (required : List String) : Bool :=
  required.all (fun p => actor.perms.contains p)

/-- `PermissionRequiredMixin.dispatch`: checks `has_perms` against the
class's `permission_required`; on failure `handle_no_permission` raises
`PermissionDenied` for an authenticated user and redirects anonymous
callers to login. -/
def permission_required_dispatch {α : Type} (required : List String)
    (actor : Actor) (body : α) : ViewResponse α :=
  if has_perms actor required then .ok body
  else if actor.is_authenticated then .permissionDenied
  else .redirectToLogin

/-- A request hitting `renew_book_librarian`: GET, or POST carrying the
proposed due_back date. -/
inductive RenewRequest where
  | get
  | post (due_back : Int)
deriving DecidableEq, Repr

/-- Outcome of `renew_book_librarian` past the gate and lookup: a redirect
to the named url pattern after a save, or the re-rendered form with its
current value and field errors. -/
inductive RenewOutcome where
  | redirect (url : String)
  | renderForm (formValue : Option Int) (errors : List String)
deriving DecidableEq, Repr

/-- `get_object_or_404(BookInstance, pk=pk)` as a lookup on the store. -/
def findInstance (pk : Nat) (l : List BookInstanceRec) :
    Option BookInstanceRec :=
  l.find? (fun b => b.id == pk)

/-- `book_instance.save()`: write the mutated row back into the store. -/
def saveInstance (inst : BookInstanceRec) (l : List BookInstanceRec) :
    List BookInstanceRec :=
  l.map (fun b => if b.id == inst.id then inst else b)

/-- `renew_book_librarian` (views.py lines 107-140): login and permission
gate, instance lookup, then on POST the model-form validation with a save
and redirect to the all-borrowed view on success, or the bound form with
its errors on failure; on GET the unbound form initialised with
today + 3 weeks.  Returns the response paired with the bookinstance table
after the request. -/
def renew_book_librarian (today : Int) (actor : Actor) (db : Db) (pk : Nat)
    (req : RenewRequest) : ViewResponse RenewOutcome × List BookInstanceRec :=
  if actor.is_authenticated = false then (.redirectToLogin, db.bookinstances)
  else if actor.perms.contains can_mark_returned = false then
    (.permissionDenied, db.bookinstances)
  else
    match findInstance pk db.bookinstances with
    | none => (.notFound, db.bookinstances)
    | some book_instance =>
      match req with
      | .post d =>
        match clean_due_back today d with
        | .ok v =>
          let saved := { book_instance with due_back := some v }
          (.ok (.redirect "all-borrowed"), saveInstance saved db.bookinstances)
        | .error e => (.ok (.renderForm (some d) [e]), db.bookinstances)
      | .get =>
        (.ok (.renderForm (some (today + 7 * 3)) []), db.bookinstances)

/-- Example instance A of the spec, with base date D = 0 and borrower U = 0. -/
def instanceA : BookInstanceRec :=
  { id := 1, due_back := some 5, status := 'o', borrower := some 0 }

/-- Example instance B of the spec: due D + 1, borrower U. -/
def instanceB : BookInstanceRec :=
  { id := 2, due_back := some 1, status := 'o', borrower := some 0 }

/-- Example instance C of the spec: due D + 1, another borrower. -/
def instanceC : BookInstanceRec :=
  { id := 3, due_back := some 1, status := 'o', borrower := some 1 }

/-- Store holding the three example instances. -/
def exampleDb : Db :=
  { books := [], bookinstances := [instanceA, instanceB, instanceC],
    authors := [], genres := [] }

/-- A store with no rows. -/
def emptyDb : Db :=
  { books := [], bookinstances := [], authors := [], genres := [] }

/-- An authenticated librarian holding both named permissions. -/
def actorLibrarian : Actor :=
  { is_authenticated := true, perms := [can_mark_returned, can_edit] }

/-- An anonymous caller. -/
def actorAnonymous : Actor :=
  { is_authenticated := false, perms := [] }

/-- An authenticated caller holding no permission. -/
def actorNoPerm : Actor :=
  { is_authenticated := true, perms := [] }

/-- An authenticated caller holding only `catalog.can_mark_returned`. -/
def actorOnlyMark : Actor :=
  { is_authenticated := true, perms := [can_mark_returned] }

end Catalog

open Catalog

/-- C1: for every date `D`, `RenewBookModelForm.clean_due_back` succeeds and
returns `D` unchanged iff `today ≤ D ≤ today + 28`; in particular `D = today`
and `D = today + 28` both pass. -/
theorem clean_due_back_ok_iff (today D : Int) :
    (clean_due_back today D = .ok D ↔ today ≤ D ∧ D ≤ today + 28) ∧
    clean_due_back today today = .ok today ∧
    clean_due_back today (today + 28) = .ok (today + 28) := by
  refine ⟨?_, ?_, ?_⟩ <;> unfold clean_due_back <;>
    (try split) <;> (try split) <;> simp_all <;> omega

/-- Witness for C1 at `today = 100`: the bounds characterise success. -/
theorem clean_due_back_ok_iff_witness :
    (clean_due_back 100 114 = .ok 114 ↔ (100 : Int) ≤ 114 ∧ (114 : Int) ≤ 100 + 28) ∧
    clean_due_back 100 100 = .ok 100 ∧
    clean_due_back 100 (100 + 28) = .ok (100 + 28) :=
  clean_due_back_ok_iff 100 114

/-- C2: `clean_due_back` fails with the past-date message exactly when
`D < today`, and with the too-far-ahead message exactly when
`D > today + 28`; `today - 1` fails with the former and `today + 29` with
the latter. -/
theorem clean_due_back_errors (today D : Int) :
    (clean_due_back today D = .error modelPastMsg ↔ D < today) ∧
    (clean_due_back today D = .error modelFarMsg ↔ today + 28 < D) ∧
    clean_due_back today (today - 1) = .error modelPastMsg ∧
    clean_due_back today (today + 29) = .error modelFarMsg := by
  refine ⟨?_, ?_, ?_, ?_⟩ <;> unfold clean_due_back <;>
    (try split) <;> (try split) <;> simp_all [modelPastMsg, modelFarMsg] <;> omega

/-- C3: the bare-field validator `clean_renewal_date` and the model-field
validator `clean_due_back` accept exactly the same dates, and whenever
either succeeds its value is the input date unchanged. -/
theorem validators_equivalent (today D : Int) :
    ((∃ v, clean_renewal_date today D = .ok v) ↔
      (∃ v, clean_due_back today D = .ok v)) ∧
    (∀ v, clean_renewal_date today D = .ok v → v = D) ∧
    (∀ v, clean_due_back today D = .ok v → v = D) := by
  refine ⟨?_, ?_, ?_⟩ <;> simp only [clean_renewal_date, clean_due_back] <;>
    (try split) <;> (try split) <;> simp_all

/-- Helper: the stored visit counter after `n` home-view calls reads back
as `n` (the absent slot reads as the default 0). -/
theorem sessionAfterVisits_getD (db : Db) :
    ∀ n, (sessionAfterVisits db n).getD 0 = n
  | 0 => rfl
  | n + 1 => by
    simp [sessionAfterVisits, index_body, sessionAfterVisits_getD db n]

/-- C4: once the login and permission gate passes and the instance
resolves, a GET request to `renew_book_librarian` proposes exactly
`today + 21` days. -/
theorem renew_get_proposes_today_plus_21
    (today : Int) (actor : Actor) (db : Db) (pk : Nat)
    (inst : BookInstanceRec)
    (hauth : actor.is_authenticated = true)
    (hperm : actor.perms.contains can_mark_returned = true)
    (hfind : findInstance pk db.bookinstances = some inst) :
    renew_book_librarian today actor db pk .get
      = (.ok (.renderForm (some (today + 21)) []), db.bookinstances) := by
  have hmem : can_mark_returned ∈ actor.perms := by simpa using hperm
  simp [renew_book_librarian, hauth, hmem, hfind]

/-- Witness for C4: a librarian GETs the renewal form for instance 1 of the
example store with today = 0 and is proposed day 21. -/
theorem renew_get_proposes_today_plus_21_witness :
    renew_book_librarian 0 actorLibrarian exampleDb 1 .get
      = (.ok (.renderForm (some ((0 : Int) + 21)) []), exampleDb.bookinstances) :=
  renew_get_proposes_today_plus_21 0 actorLibrarian exampleDb 1 instanceA
    rfl rfl rfl

/-- C5: past the gate and lookup, a POST whose date fails validation leaves
the store unchanged and re-renders the form with the rejected input and
the error message, while a POST whose date validates saves the new
due_back onto the instance and redirects to the all-borrowed view. -/
theorem renew_post_persists_iff_valid
    (today : Int) (actor : Actor) (db : Db) (pk : Nat)
    (inst : BookInstanceRec) (d : Int)
    (hauth : actor.is_authenticated = true)
    (hperm : actor.perms.contains can_mark_returned = true)
    (hfind : findInstance pk db.bookinstances = some inst) :
    (∀ e, clean_due_back today d = .error e →
      renew_book_librarian today actor db pk (.post d)
        = (.ok (.renderForm (some d) [e]), db.bookinstances)) ∧
    (clean_due_back today d = .ok d →
      renew_book_librarian today actor db pk (.post d)
        = (.ok (.redirect "all-borrowed"),
           saveInstance { inst with due_back := some d } db.bookinstances)) := by
  have hmem : can_mark_returned ∈ actor.perms := by simpa using hperm
  constructor
  · intro e he
    simp [renew_book_librarian, hauth, hmem, hfind, he]
  · intro hok
    simp [renew_book_librarian, hauth, hmem, hfind, hok]

/-- Witness for C5: with today = 0, posting day -1 for instance 1 leaves
the example store unchanged with the past-date message, and posting day 7
saves and redirects. -/
theorem renew_post_persists_iff_valid_witness :
    renew_book_librarian 0 actorLibrarian exampleDb 1 (.post (-1))
      = (.ok (.renderForm (some (-1)) [modelPastMsg]), exampleDb.bookinstances) ∧
    renew_book_librarian 0 actorLibrarian exampleDb 1 (.post 7)
      = (.ok (.redirect "all-borrowed"),
         saveInstance { instanceA with due_back := some 7 }
           exampleDb.bookinstances) :=
  ⟨(renew_post_persists_iff_valid 0 actorLibrarian exampleDb 1 instanceA (-1)
      rfl rfl rfl).1 modelPastMsg rfl,
   (renew_post_persists_iff_valid 0 actorLibrarian exampleDb 1 instanceA 7
      rfl rfl rfl).2 rfl⟩

/-- C6: an anonymous request to the home view is redirected to login, and
an authenticated request lacking `catalog.can_mark_returned` is rejected
with `PermissionDenied`, not redirected. -/
theorem index_gate (actor : Actor) (db : Db) (session : Option Nat) :
    (actor.is_authenticated = false →
      index actor db session = .redirectToLogin) ∧
    (actor.is_authenticated = true →
      actor.perms.contains can_mark_returned = false →
      index actor db session = .permissionDenied) := by
  constructor
  · intro h
    simp [index, h]
  · intro h1 h2
    have hmem : can_mark_returned ∉ actor.perms := by simpa using h2
    simp [index, h1, hmem]

/-- Witness for C6: the anonymous caller is redirected and the
permissionless authenticated caller is rejected, on the empty store. -/
theorem index_gate_witness :
    index actorAnonymous emptyDb none = .redirectToLogin ∧
    index actorNoPerm emptyDb none = .permissionDenied :=
  ⟨(index_gate actorAnonymous emptyDb none).1 rfl,
   (index_gate actorNoPerm emptyDb none).2 rfl rfl⟩

/-- C7: the my-loans queryset holds exactly the caller's on-loan instances,
is sorted ascending by due_back, uses page size 3, and on the spec's
example store for borrower 0 returns instance B before instance A. -/
theorem loaned_books_by_user_spec :
    (∀ (u : Nat) (db : Db) (b : BookInstanceRec),
      b ∈ loaned_books_by_user_queryset u db ↔
        b ∈ db.bookinstances ∧ b.borrower = some u ∧ b.status = statusOnLoan) ∧
    (∀ (u : Nat) (db : Db),
      (loaned_books_by_user_queryset u db).Sorted instLe) ∧
    LoanedBooksByUserListView_paginate_by = 3 ∧
    loaned_books_by_user_queryset 0 exampleDb = [instanceB, instanceA] := by
  refine ⟨?_, ?_, rfl, ?_⟩
  · intro u db b
    unfold loaned_books_by_user_queryset
    rw [List.mem_insertionSort]
    simp [List.mem_filter, and_assoc]
    tauto
  · intro u db
    exact List.sorted_insertionSort instLe _
  · rfl

/-- C8: the all-active-loans list and all six Author and Book
create/update/delete views each demand the same two permissions, and the
framework check is AND: it passes exactly when both permissions are held,
so an authenticated actor lacking either one is rejected. -/
theorem permission_all_semantics (actor : Actor) :
    AllLoanedBooks_permission_required = [can_mark_returned, can_edit] ∧
    AuthorCreate_permission_required = [can_mark_returned, can_edit] ∧
    AuthorUpdate_permission_required = [can_mark_returned, can_edit] ∧
    AuthorDelete_permission_required = [can_mark_returned, can_edit] ∧
    BookCreate_permission_required = [can_mark_returned, can_edit] ∧
    BookUpdate_permission_required = [can_mark_returned, can_edit] ∧
    BookDelete_permission_required = [can_mark_returned, can_edit] ∧
    (has_perms actor AllLoanedBooks_permission_required = true ↔
      can_mark_returned ∈ actor.perms ∧ can_edit ∈ actor.perms) ∧
    (actor.is_authenticated = true →
      has_perms actor AllLoanedBooks_permission_required = false →
      permission_required_dispatch AllLoanedBooks_permission_required actor ()
        = .permissionDenied) := by
  refine ⟨rfl, rfl, rfl, rfl, rfl, rfl, rfl, ?_, ?_⟩
  · simp [has_perms, AllLoanedBooks_permission_required]
  · intro h1 h2
    simp [permission_required_dispatch, h1, h2]

/-- Witness for C8: the actor holding only `can_mark_returned` is rejected
by the dual-permission dispatch with `PermissionDenied`. -/
theorem permission_all_semantics_witness :
    permission_required_dispatch AllLoanedBooks_permission_required
      actorOnlyMark () = .permissionDenied :=
  (permission_all_semantics actorOnlyMark).2.2.2.2.2.2.2.2 rfl (by decide)

/-- C9: the session counter num_visits reads as 0 when absent, each
home-view call stores back the read value plus one, and after n calls of
a fresh session the stored value is n; in particular it strictly
increases with every call. -/
theorem num_visits_counter (db : Db) :
    (index_body db none).1.num_visits = 0 ∧
    (∀ s : Option Nat, (index_body db s).2 = some (s.getD 0 + 1)) ∧
    (∀ n : Nat, (sessionAfterVisits db n).getD 0 = n) ∧
    (∀ n : Nat, sessionAfterVisits db (n + 1) = some (n + 1)) := by
  refine ⟨rfl, fun s => rfl, sessionAfterVisits_getD db, fun n => ?_⟩
  simp [sessionAfterVisits, index_body, sessionAfterVisits_getD db n]

/-- C10: the rendered num_visits is the pre-increment value: the
(n + 1)-th home-view call of a session reports n, even though the stored
counter becomes n + 1. -/
theorem reported_visits_pre_increment (db : Db) (n : Nat) :
    reportedVisitsOnCall db (n + 1) = n ∧
    sessionAfterVisits db (n + 1) = some (n + 1) := by
  constructor
  · simp [reportedVisitsOnCall, index_body, sessionAfterVisits_getD db n]
  · simp [sessionAfterVisits, index_body, sessionAfterVisits_getD db n]
